import Mathlib

/-!
# Verification of the temporal multi-agent customer-support engine

A shallow embedding of the workflow/agent execution engine of the
`temporal-multi-agent-customer-support` repository, together with proofs
about its behavior.  The embedding follows the Python sources:

* `src/temporal/data/base_models.py` — enums,
* `src/temporal/data/ticket_models.py` — `ChatMessage`, `TicketState` and
  their `to_dict`/`from_dict` serializers,
* `src/temporal/data/interaction_models.py` — `UserQuestion`,
* `src/temporal/data/agent_models.py` — `ExecutionStep`, `ExecutionPlan`,
  `OrchestratorOutput`,
* `src/temporal/workflows/ticket_workflow.py` — the `TicketWorkflow`
  signal handlers and orchestration post-processing,
* `src/temporal/workflows/user_question_workflow.py` — `UserQuestionWorkflow`,
* `src/temporal/workflows/agents/orchestrator_agent.py` —
  `_group_by_dependencies`,
* `src/temporal/activities/orchestrator_activity.py` —
  `orchestrator_planning_activity`,
* `src/temporal/activities/maintenance_activity.py` —
  `auto_close_inactive_tickets_activity`.

Modeling conventions:

* Python `datetime` values are modeled as microseconds since the epoch
  (`Datetime := Nat`).  The `isoformat`/`fromisoformat` pair of the Python
  standard library is modeled by the base-10 digit encoding
  (`Nat.digits`/`Nat.ofDigits`), a faithful injective stand-in for
  ISO-8601 text: both are total, executable, and mutually inverse.
* Python `float` values (confidences) are modeled as `Rat`; they are only
  carried around, never computed with, in the code under study.
* Arbitrary JSON-serializable Python values (`Dict[str, Any]` payloads
  that the code stores but never inspects) are modeled by the inductive
  type `PyVal`.
* Fallible Python code (constructor calls such as `MessageType(x)` that
  raise `ValueError`) is modeled with `Except String`.
* A Temporal workflow's durable state is passed explicitly; a signal
  handler is a function from state (plus the signal payload and the
  current time `workflow.now()`) to state together with the list of
  outward effects (external signals) it emits.
-/

namespace TemporalSupport

/-! ## Base enums (src/temporal/data/base_models.py) -/

/-- `TicketStatus` enum.  The Python member `OPEN` is rendered `open_`
because `open` is a Lean keyword. -/
inductive TicketStatus where
  | open_
  | waiting_for_customer
  | in_progress
  | escalated_to_human
  | resolved
  | closed
deriving DecidableEq, Repr

/-- The `.value` string of a `TicketStatus` member. -/
def TicketStatus.value : TicketStatus → String
  | .open_ => "open"
  | .waiting_for_customer => "waiting_for_customer"
  | .in_progress => "in_progress"
  | .escalated_to_human => "escalated_to_human"
  | .resolved => "resolved"
  | .closed => "closed"

/-- The Python enum constructor `TicketStatus(s)`: looks a member up by its
value, `none` modeling the `ValueError` case. -/
def TicketStatus.ofValue (s : String) : Option TicketStatus :=
  if s = "open" then some .open_
  else if s = "waiting_for_customer" then some .waiting_for_customer
  else if s = "in_progress" then some .in_progress
  else if s = "escalated_to_human" then some .escalated_to_human
  else if s = "resolved" then some .resolved
  else if s = "closed" then some .closed
  else none

/-- `MessageType` enum. -/
inductive MessageType where
  | customer
  | ai_agent
  | human_agent
  | system
deriving DecidableEq, Repr

def MessageType.value : MessageType → String
  | .customer => "customer"
  | .ai_agent => "ai_agent"
  | .human_agent => "human_agent"
  | .system => "system"

def MessageType.ofValue (s : String) : Option MessageType :=
  if s = "customer" then some .customer
  else if s = "ai_agent" then some .ai_agent
  else if s = "human_agent" then some .human_agent
  else if s = "system" then some .system
  else none

/-- `AgentType` enum. -/
inductive AgentType where
  | intent_classifier
  | orchestrator
  | order_specialist
  | technical_specialist
  | refund_specialist
  | general_support
  | escalation_manager
  | human_agent
  | male_specialist
  | female_specialist
  | billing
  | delivery
  | alteration
deriving DecidableEq, Repr

def AgentType.value : AgentType → String
  | .intent_classifier => "intent_classifier"
  | .orchestrator => "orchestrator"
  | .order_specialist => "order_specialist"
  | .technical_specialist => "technical_specialist"
  | .refund_specialist => "refund_specialist"
  | .general_support => "general_support"
  | .escalation_manager => "escalation_manager"
  | .human_agent => "human_agent"
  | .male_specialist => "male_specialist"
  | .female_specialist => "female_specialist"
  | .billing => "billing"
  | .delivery => "delivery"
  | .alteration => "alteration"

def AgentType.ofValue (s : String) : Option AgentType :=
  if s = "intent_classifier" then some .intent_classifier
  else if s = "orchestrator" then some .orchestrator
  else if s = "order_specialist" then some .order_specialist
  else if s = "technical_specialist" then some .technical_specialist
  else if s = "refund_specialist" then some .refund_specialist
  else if s = "general_support" then some .general_support
  else if s = "escalation_manager" then some .escalation_manager
  else if s = "human_agent" then some .human_agent
  else if s = "male_specialist" then some .male_specialist
  else if s = "female_specialist" then some .female_specialist
  else if s = "billing" then some .billing
  else if s = "delivery" then some .delivery
  else if s = "alteration" then some .alteration
  else none

/-- `IntentType` enum. -/
inductive IntentType where
  | order_inquiry
  | technical_support
  | refund_request
  | billing_question
  | complaint
  | general_question
  | purchase
deriving DecidableEq, Repr

def IntentType.value : IntentType → String
  | .order_inquiry => "order_inquiry"
  | .technical_support => "technical_support"
  | .refund_request => "refund_request"
  | .billing_question => "billing_question"
  | .complaint => "complaint"
  | .general_question => "general_question"
  | .purchase => "purchase"

def IntentType.ofValue (s : String) : Option IntentType :=
  if s = "order_inquiry" then some .order_inquiry
  else if s = "technical_support" then some .technical_support
  else if s = "refund_request" then some .refund_request
  else if s = "billing_question" then some .billing_question
  else if s = "complaint" then some .complaint
  else if s = "general_question" then some .general_question
  else if s = "purchase" then some .purchase
  else none

/-- `UrgencyLevel` enum (values are the strings "1".."4" in the source). -/
inductive UrgencyLevel where
  | low
  | medium
  | high
  | critical
deriving DecidableEq, Repr

def UrgencyLevel.value : UrgencyLevel → String
  | .low => "1"
  | .medium => "2"
  | .high => "3"
  | .critical => "4"

def UrgencyLevel.ofValue (s : String) : Option UrgencyLevel :=
  if s = "1" then some .low
  else if s = "2" then some .medium
  else if s = "3" then some .high
  else if s = "4" then some .critical
  else none

/-- `EscalationReason` enum. -/
inductive EscalationReason where
  | complex_issue
  | customer_dissatisfied
  | multiple_failed_attempts
  | vip_customer
  | policy_exception_needed
  | technical_limitation
deriving DecidableEq, Repr

def EscalationReason.value : EscalationReason → String
  | .complex_issue => "complex_issue"
  | .customer_dissatisfied => "customer_dissatisfied"
  | .multiple_failed_attempts => "multiple_failed_attempts"
  | .vip_customer => "vip_customer"
  | .policy_exception_needed => "policy_exception_needed"
  | .technical_limitation => "technical_limitation"

def EscalationReason.ofValue (s : String) : Option EscalationReason :=
  if s = "complex_issue" then some .complex_issue
  else if s = "customer_dissatisfied" then some .customer_dissatisfied
  else if s = "multiple_failed_attempts" then some .multiple_failed_attempts
  else if s = "vip_customer" then some .vip_customer
  else if s = "policy_exception_needed" then some .policy_exception_needed
  else if s = "technical_limitation" then some .technical_limitation
  else none

/-! Round-trip laws for the enums: looking a member up by its own value
returns that member, and no member value is the empty string (Python
truthiness of the value strings). -/

theorem ticketStatus_ofValue_value (x : TicketStatus) : TicketStatus.ofValue x.value = some x := by
  cases x <;> decide

theorem messageType_ofValue_value (x : MessageType) : MessageType.ofValue x.value = some x := by
  cases x <;> decide

theorem agentType_ofValue_value (x : AgentType) : AgentType.ofValue x.value = some x := by
  cases x <;> decide

theorem intentType_ofValue_value (x : IntentType) : IntentType.ofValue x.value = some x := by
  cases x <;> decide

theorem urgencyLevel_ofValue_value (x : UrgencyLevel) : UrgencyLevel.ofValue x.value = some x := by
  cases x <;> decide

theorem escalationReason_ofValue_value (x : EscalationReason) :
    EscalationReason.ofValue x.value = some x := by
  cases x <;> decide

theorem agentType_value_ne_empty (x : AgentType) : x.value ≠ "" := by
  cases x <;> decide

/-! ## Datetime model -/

/-- Python `datetime` values, modeled as microseconds since the epoch. -/
abbrev Datetime := Nat

/-- Model of `datetime.isoformat()`: the base-10 digit encoding of the
instant, a faithful injective stand-in for the ISO-8601 string. -/
def isoformat (d : Datetime) : List Nat := Nat.digits 10 d

/-- Model of `datetime.fromisoformat`. -/
def fromisoformat (s : List Nat) : Datetime := Nat.ofDigits 10 s

theorem fromisoformat_isoformat (d : Datetime) : fromisoformat (isoformat d) = d := by
  simpa [fromisoformat, isoformat] using Nat.ofDigits_digits 10 d

/-! ## Opaque JSON-like payloads -/

/-- JSON-serializable Python values that the engine stores but never
inspects (`metadata`, `customer_profile`, `additional_info`, ...). -/
inductive PyVal where
  | none
  | bool (b : Bool)
  | int (n : Int)
  | str (s : String)
  | list (l : List PyVal)
  | dict (l : List (String × PyVal))

/-- A field that the dynamically typed Python code may populate either with
an enum member or with a raw string.  `TicketWorkflow.display_agent_question`
builds a `ChatMessage` whose `agent_type` is the plain string taken from the
question payload, so the embedding keeps both possibilities. -/
inductive EnumOrStr (α : Type) where
  | enum (a : α)
  | str (s : String)
deriving DecidableEq, Repr

/-- Python truthiness of such a field: enum members are always truthy,
strings are truthy iff non-empty. -/
def EnumOrStr.pyTruthy {α : Type} : EnumOrStr α → Bool
  | .enum _ => true
  | .str s => s ≠ ""

/-- The string this field serializes to:
`x.value if hasattr(x, "value") else x`. -/
def EnumOrStr.serial {α : Type} (value : α → String) : EnumOrStr α → String
  | .enum a => value a
  | .str s => s

/-! ## ChatMessage (src/temporal/data/ticket_models.py, lines 6-34) -/

/-- `ChatMessage` dataclass.  `agent_type` is an `EnumOrStr` because the
source sometimes stores a raw string there (see `display_agent_question`). -/
structure ChatMessage where
  id : String
  ticket_id : String
  content : String
  message_type : MessageType
  agent_type : Option (EnumOrStr AgentType)
  timestamp : Datetime
  metadata : List (String × PyVal) := []
  additional_info : Option (List (String × PyVal)) := some []

/-- The dictionary `ChatMessage.to_dict` produces.  Keys are the dataclass
fields; enum members have been replaced by their `.value` strings and the
timestamp by its `isoformat` encoding. -/
structure ChatMessageDict where
  id : String
  ticket_id : String
  content : String
  message_type : String
  agent_type : Option String
  timestamp : List Nat
  metadata : List (String × PyVal)
  additional_info : Option (List (String × PyVal))

/-- `(self.agent_type.value if hasattr(self.agent_type, "value") else
self.agent_type) if self.agent_type else None`: a falsy field (absent, or
the empty raw string) serializes to `None`, otherwise the enum member's
value or the raw string itself is kept. -/
def serializeAgentField : Option (EnumOrStr AgentType) → Option String
  | none => none
  | some y => if y.pyTruthy then some (y.serial AgentType.value) else none

/-- `ChatMessage.to_dict`.  For a field typed by the enum the
`hasattr(x, "value")` guard in the source always takes the `.value`
branch, which is what the typed model expresses directly; for
`agent_type`, which may hold a raw string, both branches are modeled. -/
def ChatMessage.to_dict (m : ChatMessage) : ChatMessageDict where
  id := m.id
  ticket_id := m.ticket_id
  content := m.content
  message_type := m.message_type.value
  agent_type := serializeAgentField m.agent_type
  timestamp := isoformat m.timestamp
  metadata := m.metadata
  additional_info := m.additional_info

/-- `AgentType(data["agent_type"]) if data["agent_type"] else None`:
an absent or empty string gives `None`, an unknown non-empty string raises
`ValueError`. -/
def parseOptAgentType : Option String → Except String (Option (EnumOrStr AgentType))
  | none => .ok none
  | some s =>
    if s = "" then .ok none
    else
      match AgentType.ofValue s with
      | some a => .ok (some (.enum a))
      | none => .error "ValueError: invalid AgentType"

/-- `ChatMessage.from_dict`.  `MessageType(x)` raising `ValueError` is
modeled with `Except.error`. -/
def ChatMessage.from_dict (d : ChatMessageDict) : Except String ChatMessage := do
  let mt ←
    match MessageType.ofValue d.message_type with
    | some mt => Except.ok mt
    | none => Except.error "ValueError: invalid MessageType"
  let at_ ← parseOptAgentType d.agent_type
  Except.ok
    { id := d.id
      ticket_id := d.ticket_id
      content := d.content
      message_type := mt
      agent_type := at_
      timestamp := fromisoformat d.timestamp
      metadata := d.metadata
      additional_info := d.additional_info }

/-! ## QuestionRecord payloads (src/temporal/workflows/user_question_workflow.py, lines 40-49)

`UserQuestionWorkflow.run` builds a plain dict for its question; the
Ticket Conductor stores it in `pending_questions` and later writes the
`response`, `responded_at` and `status` keys.  The embedding types that
dict as a structure with exactly those keys. -/

structure QuestionData where
  question_id : String
  ticket_id : String
  question : String
  expected_response_type : String
  agent_type : String
  asked_at : List Nat
  status : String
  workflow_id : String
  response : Option String := none
  responded_at : Option (List Nat) := none
deriving DecidableEq, Repr

/-! ## ExecutionStep / ExecutionPlan (src/temporal/data/agent_models.py, lines 150-170) -/

structure ExecutionStep where
  step_number : Int
  agent_type : String
  reason : String
  depends_on : List Int := []
  inputs : List (String × PyVal) := []
  context_references : List String := []
  priority : Int := 1

structure ExecutionPlan where
  steps : List ExecutionStep
  strategy : String
  complexity_level : String
  estimated_duration_seconds : Int
  reasoning : String

/-- The slice of `OrchestratorOutput` (src/temporal/data/agent_models.py,
lines 194-205) that the Ticket Conductor reads.  `confidence` is a Python
float, modeled as `Rat`. -/
structure OrchestratorOutput where
  final_response : String
  confidence : Rat
  execution_plan : ExecutionPlan
  synthesis_reasoning : String
  requires_escalation : Bool
  requires_followup : Bool
  followup_plan : Option ExecutionPlan := none

/-! ## TicketState (src/temporal/data/ticket_models.py, lines 36-89) -/

/-- Values the Ticket Conductor writes into `TicketState.context`
(`Dict[str, Any]` in the source): a plan snapshot, a float confidence,
an isoformat timestamp, or a plain string. -/
inductive ContextVal where
  | plan (p : ExecutionPlan)
  | rat (q : Rat)
  | iso (d : List Nat)
  | str (s : String)

structure TicketState where
  ticket_id : String
  customer_id : String
  customer_profile : List (String × PyVal)
  status : TicketStatus
  current_intent : Option IntentType
  urgency_level : UrgencyLevel
  assigned_agent_type : Option AgentType
  context : List (String × ContextVal)
  chat_history : List ChatMessage
  created_at : Datetime
  last_updated : Datetime
  escalation_reason : Option EscalationReason := none
  resolution_summary : Option String := none
  satisfaction_score : Option Int := none
  failed_attempts : Int := 0
  escalation_count : Int := 0
  processing_mode : String := "sequential"
  detected_intents : List String := []
  active_subworkflows : List (String × PyVal) := []
  specialist_responses : List (String × PyVal) := []
  pending_questions : List (String × QuestionData) := []
  synthesis_complete : Bool := false

/-- The dictionary `TicketState.to_dict` produces. -/
structure TicketStateDict where
  ticket_id : String
  customer_id : String
  customer_profile : List (String × PyVal)
  status : String
  current_intent : Option String
  urgency_level : String
  assigned_agent_type : Option String
  context : List (String × ContextVal)
  chat_history : List ChatMessageDict
  created_at : List Nat
  last_updated : List Nat
  escalation_reason : Option String
  resolution_summary : Option String
  satisfaction_score : Option Int
  failed_attempts : Int
  escalation_count : Int
  processing_mode : String
  detected_intents : List String
  active_subworkflows : List (String × PyVal)
  specialist_responses : List (String × PyVal)
  pending_questions : List (String × QuestionData)
  synthesis_complete : Bool

/-- `TicketState.to_dict` (lines 63-75): enum fields become their `.value`
strings (`None` stays `None`), datetimes become isoformat encodings, the
chat history is serialized message by message, everything else passes
through as `asdict` leaves it. -/
def TicketState.to_dict (t : TicketState) : TicketStateDict where
  ticket_id := t.ticket_id
  customer_id := t.customer_id
  customer_profile := t.customer_profile
  status := t.status.value
  current_intent := t.current_intent.map IntentType.value
  urgency_level := t.urgency_level.value
  assigned_agent_type := t.assigned_agent_type.map AgentType.value
  context := t.context
  chat_history := t.chat_history.map ChatMessage.to_dict
  created_at := isoformat t.created_at
  last_updated := isoformat t.last_updated
  escalation_reason := t.escalation_reason.map EscalationReason.value
  resolution_summary := t.resolution_summary
  satisfaction_score := t.satisfaction_score
  failed_attempts := t.failed_attempts
  escalation_count := t.escalation_count
  processing_mode := t.processing_mode
  detected_intents := t.detected_intents
  active_subworkflows := t.active_subworkflows
  specialist_responses := t.specialist_responses
  pending_questions := t.pending_questions
  synthesis_complete := t.synthesis_complete

/-- `Enum(x) if x else None` for an optional enum-valued entry: `None` and
the empty string give `None`, an unknown non-empty string raises. -/
def parseOptEnum {α : Type} (ofValue : String → Option α) (err : String) :
    Option String → Except String (Option α)
  | none => .ok none
  | some s =>
    if s = "" then .ok none
    else
      match ofValue s with
      | some a => .ok (some a)
      | none => .error err

/-- `[ChatMessage.from_dict(msg) for msg in data["chat_history"]]`: the
comprehension raises as soon as one element fails. -/
def parseChatHistory : List ChatMessageDict → Except String (List ChatMessage)
  | [] => .ok []
  | d :: rest => do
    let m ← ChatMessage.from_dict d
    let ms ← parseChatHistory rest
    .ok (m :: ms)

/-- `TicketState.from_dict` (lines 77-89). -/
def TicketState.from_dict (d : TicketStateDict) : Except String TicketState := do
  let status ←
    match TicketStatus.ofValue d.status with
    | some s => Except.ok s
    | none => Except.error "ValueError: invalid TicketStatus"
  let current_intent ← parseOptEnum IntentType.ofValue "ValueError: invalid IntentType" d.current_intent
  let urgency ←
    match UrgencyLevel.ofValue d.urgency_level with
    | some u => Except.ok u
    | none => Except.error "ValueError: invalid UrgencyLevel"
  let assigned ← parseOptEnum AgentType.ofValue "ValueError: invalid AgentType" d.assigned_agent_type
  let esc ← parseOptEnum EscalationReason.ofValue "ValueError: invalid EscalationReason" d.escalation_reason
  let history ← parseChatHistory d.chat_history
  Except.ok
    { ticket_id := d.ticket_id
      customer_id := d.customer_id
      customer_profile := d.customer_profile
      status := status
      current_intent := current_intent
      urgency_level := urgency
      assigned_agent_type := assigned
      context := d.context
      chat_history := history
      created_at := fromisoformat d.created_at
      last_updated := fromisoformat d.last_updated
      escalation_reason := esc
      resolution_summary := d.resolution_summary
      satisfaction_score := d.satisfaction_score
      failed_attempts := d.failed_attempts
      escalation_count := d.escalation_count
      processing_mode := d.processing_mode
      detected_intents := d.detected_intents
      active_subworkflows := d.active_subworkflows
      specialist_responses := d.specialist_responses
      pending_questions := d.pending_questions
      synthesis_complete := d.synthesis_complete }

/-! ## Ticket Conductor (src/temporal/workflows/ticket_workflow.py)

`TicketWorkflow` holds an `asyncio.Queue` of pending customer messages, an
optional awaiting-answer marker, and the optional ticket state.  Signal
handlers mutate this state; sending a signal to an external workflow is
recorded as an `Effect`. -/

structure ConductorState where
  pending_queries : List ChatMessage := []
  waiting_for_answer_workflow_id : Option String := none
  state : Option TicketState := none

/-- Outward effect of a handler: an external-workflow signal
(`workflow.get_external_workflow_handle(wid).signal(name, payload)`). -/
inductive Effect where
  | signalExternal (workflow_id : String) (signal : String) (payload : String)
deriving DecidableEq, Repr

/-- Python dict assignment `d[k] = v`: replaces in place if the key is
present, appends otherwise. -/
def dictSet {α : Type} (d : List (String × α)) (k : String) (v : α) : List (String × α) :=
  if d.any (fun p => p.1 = k) then d.map (fun p => if p.1 = k then (k, v) else p)
  else d ++ [(k, v)]

/-- The `for q_id, q_data in pending_questions.items(): ... break` loop of
`addMessage` (lines 196-201): the first record whose `workflow_id` matches
the awaiting marker gets `response`, `responded_at` and `status` written;
the loop then breaks. -/
def markAnswered (pq : List (String × QuestionData)) (wid content : String)
    (now : Datetime) : List (String × QuestionData) :=
  match pq with
  | [] => []
  | (k, q) :: rest =>
    if q.workflow_id = wid then
      (k, { q with
            response := some content
            responded_at := some (isoformat now)
            status := "answered" }) :: rest
    else (k, q) :: markAnswered rest wid content now

/-- `sum(1 for q in pending_questions.values() if q.get("status") != "answered")`. -/
def countPending (pq : List (String × QuestionData)) : Nat :=
  (pq.filter (fun p => p.2.status ≠ "answered")).length

namespace TicketWorkflow

/-- `updateTicketStatus` signal (lines 163-168): unconditionally overwrites
the status with `TicketStatus(status)` and refreshes `last_updated`; there
is no terminal-state guard.  `TicketStatus(x)` raising on an unknown string
is the `Except.error` case. -/
def updateTicketStatus (c : ConductorState) (now : Datetime) (status : String) :
    Except String ConductorState :=
  match c.state with
  | none => .ok c
  | some ts =>
    match TicketStatus.ofValue status with
    | some st => .ok { c with state := some { ts with status := st, last_updated := now } }
    | none => .error "ValueError: invalid TicketStatus"

/-- `addMessage` signal (lines 170-223).  The incoming dict is parsed with
`ChatMessage.from_dict` and appended to the chat history.  SYSTEM and
AI_AGENT messages are only logged.  A CUSTOMER message while the
awaiting-answer marker is set is routed to the waiting question workflow:
its `receive_answer` signal is emitted with the message content, the first
matching question record is marked answered, the marker is cleared, and if
no non-answered question remains the status becomes IN_PROGRESS; the
message is not enqueued.  Every other message is enqueued for processing.
The `try` around the external signal is modeled by its success branch. -/
def addMessage (c : ConductorState) (now : Datetime) (msg : ChatMessageDict) :
    Except String (ConductorState × List Effect) :=
  match c.state with
  | none => .ok (c, [])
  | some ts =>
    match ChatMessage.from_dict msg with
    | .error e => .error e
    | .ok cm =>
      let ts1 := { ts with chat_history := ts.chat_history ++ [cm] }
      if cm.message_type = .system ∨ cm.message_type = .ai_agent then
        .ok ({ c with state := some { ts1 with last_updated := now } }, [])
      else
        match c.waiting_for_answer_workflow_id with
        | some wid =>
          if cm.message_type = .customer then
            let pq := markAnswered ts1.pending_questions wid cm.content now
            let ts2 := { ts1 with pending_questions := pq }
            let ts3 := if countPending pq = 0 then { ts2 with status := .in_progress } else ts2
            .ok ({ c with
                   state := some { ts3 with last_updated := now }
                   waiting_for_answer_workflow_id := none },
                 [Effect.signalExternal wid "receive_answer" cm.content])
          else
            .ok ({ c with
                   state := some { ts1 with last_updated := now }
                   pending_queries := c.pending_queries ++ [cm] }, [])
        | none =>
          .ok ({ c with
                 state := some { ts1 with last_updated := now }
                 pending_queries := c.pending_queries ++ [cm] }, [])

/-- The question dict built in `UserQuestionWorkflow.run` (lines 40-49),
as it lands in `ChatMessage.metadata`. -/
def questionMeta (q : QuestionData) : List (String × PyVal) :=
  [("question_id", .str q.question_id),
   ("ticket_id", .str q.ticket_id),
   ("question", .str q.question),
   ("expected_response_type", .str q.expected_response_type),
   ("agent_type", .str q.agent_type),
   ("asked_at", .list (q.asked_at.map fun n => .int n)),
   ("status", .str q.status),
   ("workflow_id", .str q.workflow_id)]

/-- `display_agent_question` signal (lines 225-252): records the question,
sets the status to WAITING_FOR_CUSTOMER, sets the awaiting-answer marker to
the question workflow's id, and appends a SYSTEM message (whose
`agent_type` is the raw string from the payload) showing the question.
`msg_id` stands for `str(workflow.uuid4())`. -/
def display_agent_question (c : ConductorState) (now : Datetime) (msg_id : String)
    (q : QuestionData) : ConductorState :=
  match c.state with
  | none => c
  | some ts =>
    let question_msg : ChatMessage :=
      { id := msg_id
        ticket_id := ts.ticket_id
        content := q.question
        message_type := .system
        agent_type := some (.str q.agent_type)
        timestamp := now
        metadata := questionMeta q
        additional_info := some [] }
    { c with
      waiting_for_answer_workflow_id := some q.workflow_id
      state := some
        { ts with
          pending_questions := dictSet ts.pending_questions q.question_id q
          status := .waiting_for_customer
          chat_history := ts.chat_history ++ [question_msg]
          last_updated := now } }

/-- The signal surface of the Ticket Conductor.  `question_timeout` is
included because `UserQuestionWorkflow.run` (lines 72-75) sends it to the
parent conductor. -/
inductive Signal where
  | updateTicketStatus (status : String)
  | addMessage (msg : ChatMessageDict)
  | display_agent_question (msg_id : String) (q : QuestionData)
  | question_timeout (question_id : String) (question : String)

/-- Dispatch of one received signal.  `TicketWorkflow` registers handlers
only for `updateTicketStatus`, `addMessage` and `display_agent_question`
(the three `@workflow.signal` methods in ticket_workflow.py); a signal with
no registered handler — in particular `question_timeout` — is dropped by
the runtime without running any workflow code, so it leaves the state
untouched and emits nothing. -/
def handleSignal (c : ConductorState) (now : Datetime) :
    Signal → Except String (ConductorState × List Effect)
  | .updateTicketStatus st => (updateTicketStatus c now st).map fun c2 => (c2, [])
  | .addMessage m => addMessage c now m
  | .display_agent_question mid q => .ok (display_agent_question c now mid q, [])
  | .question_timeout _ _ => .ok (c, [])

/-- Python `dict.update(other)`: each key of `other` is assigned in order. -/
def dictUpdate {α : Type} (d updates : List (String × α)) : List (String × α) :=
  updates.foldl (fun acc kv => dictSet acc kv.1 kv.2) d

/-- The state update `_process_with_orchestrator` performs after its
orchestrator child workflow completes (lines 130-159): the status is set to
IN_PROGRESS and plan/confidence/timestamp context entries are written; if
the result requires escalation the status becomes ESCALATED_TO_HUMAN and
escalation context entries are written; if a followup is flagged and a
followup plan is present a SYSTEM message is appended.  `followup_msg_id`
stands for `str(workflow.uuid4())`. -/
def processOrchestratorResult (ts : TicketState) (result : OrchestratorOutput)
    (now : Datetime) (followup_msg_id : String) : TicketState :=
  let ts1 := { ts with
    status := TicketStatus.in_progress
    context := dictUpdate ts.context
      [("orchestrator_plan", ContextVal.plan result.execution_plan),
       ("orchestrator_confidence", ContextVal.rat result.confidence),
       ("last_orchestrator_execution", ContextVal.iso (isoformat now))] }
  let ts2 :=
    if result.requires_escalation then
      { ts1 with
        status := TicketStatus.escalated_to_human
        context := dictUpdate ts1.context
          [("escalation_reason", ContextVal.str "Orchestrator determined human assistance needed"),
           ("escalation_time", ContextVal.iso (isoformat now))] }
    else ts1
  if result.requires_followup ∧ result.followup_plan.isSome then
    let followup_msg : ChatMessage :=
      { id := followup_msg_id
        ticket_id := ts.ticket_id
        content := "🔄 Follow-up may be needed: " ++ result.synthesis_reasoning
        message_type := .system
        agent_type := some (.enum .orchestrator)
        timestamp := now
        metadata := []
        additional_info := some [] }
    { ts2 with chat_history := ts2.chat_history ++ [followup_msg] }
  else ts2

end TicketWorkflow

/-! ## UserQuestionWorkflow (src/temporal/workflows/user_question_workflow.py) -/

/-- `UserQuestion` dataclass (src/temporal/data/interaction_models.py,
lines 28-41); only the fields `run` reads are carried. -/
structure UserQuestion where
  question : String
  parent_workflow_id : String
  ticket_id : String
  agent_type : String := "SYSTEM"
  expected_response_type : String := "text"
  timeout_seconds : Int := 300

/-- Signals `UserQuestionWorkflow.run` sends to its parent conductor. -/
inductive QuestionEffect where
  | displayAgentQuestion (parent : String) (q : QuestionData)
  | questionTimeout (parent : String) (question_id : String) (question : String)
deriving DecidableEq, Repr

/-- `UserQuestionWorkflow.run` (lines 25-77).  `question_id` is the
workflow's own id (`workflow.info().workflow_id`), `now` the time the
question is asked.  The wait on the answer event is resolved by `outcome`:
`some answer` if a `receive_answer` signal arrived within the timeout
(`answer` being the signaled string stored in `_user_answer`), `none` if
`asyncio.wait_for` timed out.  Returns the workflow result together with
the parent signals sent. -/
def UserQuestionWorkflow.run (input : UserQuestion) (question_id : String)
    (now : Datetime) (outcome : Option String) : String × List QuestionEffect :=
  let question_data : QuestionData :=
    { question_id := question_id
      ticket_id := input.ticket_id
      question := input.question
      expected_response_type := input.expected_response_type
      agent_type := input.agent_type
      asked_at := isoformat now
      status := "pending"
      workflow_id := question_id }
  let displayed := [QuestionEffect.displayAgentQuestion input.parent_workflow_id question_data]
  match outcome with
  | some answer =>
    -- `return self._user_answer or "No response provided"`
    (if answer = "" then "No response provided" else answer, displayed)
  | none =>
    ("[TIMEOUT: User did not respond within " ++ toString input.timeout_seconds ++ " seconds]",
     displayed ++ [QuestionEffect.questionTimeout input.parent_workflow_id question_id input.question])

/-! ## Stage grouping (src/temporal/workflows/agents/orchestrator_agent.py,
lines 623-675) -/

/-- Stable insertion used to model Python's stable `list.sort(key=...)`. -/
def insertStable (le : ExecutionStep → ExecutionStep → Bool) (x : ExecutionStep) :
    List ExecutionStep → List ExecutionStep
  | [] => [x]
  | y :: rest => if le x y then x :: y :: rest else y :: insertStable le x rest

/-- `current_stage.sort(key=lambda s: s.priority)`: a stable ascending sort
by priority. -/
def sortByPriority (l : List ExecutionStep) : List ExecutionStep :=
  l.foldr (insertStable fun a b => a.priority ≤ b.priority) []

/-- One pass of the `for step in remaining[:]` loop of
`_group_by_dependencies`: scanning `remaining` in order, a step all of
whose dependencies are in `completed` is moved to the current stage and its
`step_number` is added to `completed` immediately, so later steps of the
same pass already see it.  Returns (current_stage, new_remaining,
new_completed); the returned completed list carries the incoming
`completed` plus the numbers added this pass, since the source's
`completed_steps` set persists across passes of the `while` loop. -/
def groupPass : List ExecutionStep → List Int →
    List ExecutionStep × List ExecutionStep × List Int
  | [], completed => ([], [], completed)
  | step :: rest, completed =>
    if step.depends_on.all (fun dep => completed.contains dep) then
      let (stage, rem, comp) := groupPass rest (completed ++ [step.step_number])
      (step :: stage, rem, comp)
    else
      let (stage, rem, comp) := groupPass rest completed
      (stage, step :: rem, comp)

/-- The `while remaining and iteration < max_iterations` loop, with the
remaining iteration budget as fuel.  When a pass makes no progress the
remaining steps are appended as a final stage and the loop breaks; when the
budget runs out the loop simply exits. -/
def groupLoop : Nat → List ExecutionStep → List Int → List (List ExecutionStep)
  | 0, _, _ => []
  | _ + 1, [], _ => []
  | fuel + 1, remaining@(_ :: _), completed =>
    let (stage, rem, comp) := groupPass remaining completed
    if stage.isEmpty then [rem]
    else sortByPriority stage :: groupLoop fuel rem comp

/-- `OrchestratorAgent._group_by_dependencies`:
`max_iterations = len(steps) + 1`, `completed_steps` starts empty. -/
def OrchestratorAgent.groupByDependencies (steps : List ExecutionStep) :
    List (List ExecutionStep) :=
  groupLoop (steps.length + 1) steps []

/-! ## Planning activity (src/temporal/activities/orchestrator_activity.py,
lines 169-267) -/

/-- One `ExecutionStepOutput` as parsed from the planner collaborator. -/
structure PlannedStepOutput where
  step : Int
  agent : String
  reason : String
  depends_on : List Int := []
  context_refs : List String := []
  priority : Int := 1

/-- The planner collaborator's structured result
(`OrchestratorPlanning` output fields). -/
structure PlannerResult where
  steps : List PlannedStepOutput
  strategy : String
  complexity_level : String
  estimated_duration : Int
  reasoning : String

/-- The per-step validation of the planning activity (lines 203-231): an
`agent` string that is not a registered `AgentType` value is rewritten to
`"general_support"`; for a step with non-empty `depends_on` and empty
`context_refs`, `context_refs` is auto-populated with `step_<n>` keys. -/
def convertPlannedStep (so : PlannedStepOutput) : ExecutionStep :=
  let agent_type := if (AgentType.ofValue so.agent).isSome then so.agent else "general_support"
  let context_refs :=
    if ¬ so.depends_on.isEmpty ∧ so.context_refs.isEmpty then
      so.depends_on.map (fun dep => "step_" ++ toString dep)
    else so.context_refs
  { step_number := so.step
    agent_type := agent_type
    reason := so.reason
    depends_on := so.depends_on
    context_references := context_refs
    priority := so.priority }

/-- The fallback plan returned when the planner call raises
(lines 249-267). -/
def fallbackPlan : ExecutionPlan :=
  { steps := [{ step_number := 1
                agent_type := "general_support"
                reason := "Fallback plan due to orchestrator error"
                depends_on := []
                context_references := []
                priority := 1 }]
    strategy := "sequential"
    complexity_level := "simple"
    estimated_duration_seconds := 10
    reasoning := "Fallback to simple plan due to error" }

/-- `orchestrator_planning_activity`: the planner collaborator either
returns a structured result (`Except.ok`) or raises (`Except.error`, the
`except` branch).  On success each step is validated and converted; on
failure the fallback single-step plan is returned, so the activity itself
never raises. -/
def orchestrator_planning_activity : Except String PlannerResult → ExecutionPlan
  | .error _ => fallbackPlan
  | .ok r =>
    { steps := r.steps.map convertPlannedStep
      strategy := r.strategy
      complexity_level := r.complexity_level
      estimated_duration_seconds := r.estimated_duration
      reasoning := r.reasoning }

/-! ## Auto-close maintenance activity
(src/temporal/activities/maintenance_activity.py, lines 39-116)

The activity lists running ticket workflows and queries each for its
state; the embedding receives that enumeration as a list of
(workflow id, queried state) pairs, with `none` for a `getState` query
that returned nothing.  Signals sent to ticket workflows are collected. -/

/-- A signal the maintenance activity sends to a ticket workflow. -/
inductive SentSignal where
  | addMessage (workflow_id : String) (message_type : String) (content : String)
  | updateTicketStatus (workflow_id : String) (status : String)
deriving DecidableEq, Repr

/-- The summary record the activity returns. -/
structure AutoCloseResult where
  evaluated : Nat
  closed : Nat
  closed_ticket_ids : List String
  inactivity_minutes : Int
deriving DecidableEq, Repr

/-- `last_activity = max(last_updated, max over chat history timestamps)`
(lines 80-88), as an `Int` epoch value. -/
def lastActivity (t : TicketState) : Int :=
  (t.chat_history.map (fun m => (m.timestamp : Int))).foldl max (t.last_updated : Int)

/-- The per-ticket body of the `async for` loop (lines 62-109): skip if the
query returned nothing, skip unless the status is OPEN, skip if
`last_activity_at >= cutoff_time`; otherwise send the SYSTEM closure
message and the `"closed"` status signal and record the ticket id
(`ticket_state.ticket_id or wf.id`, the empty string being falsy). -/
def autoCloseStep (cutoff : Int) (closure_message : String)
    (wf_id : String) (state : Option TicketState) : List String × List SentSignal :=
  match state with
  | none => ([], [])
  | some t =>
    if t.status ≠ TicketStatus.open_ then ([], [])
    else if lastActivity t ≥ cutoff then ([], [])
    else
      let tid := if t.ticket_id = "" then wf_id else t.ticket_id
      ([tid],
       [SentSignal.addMessage wf_id "system" closure_message,
        SentSignal.updateTicketStatus wf_id "closed"])

/-- The loop over all enumerated workflows, accumulating closed ids and
signals in order. -/
def autoCloseGo (cutoff : Int) (closure_message : String) :
    List (String × Option TicketState) → List String × List SentSignal
  | [] => ([], [])
  | (wf_id, st) :: rest =>
    let (ids, sigs) := autoCloseStep cutoff closure_message wf_id st
    let (ids2, sigs2) := autoCloseGo cutoff closure_message rest
    (ids ++ ids2, sigs ++ sigs2)

/-- `auto_close_inactive_tickets_activity`:
`cutoff_time = now - timedelta(minutes=inactivity_minutes)` (times in
microseconds), every enumerated workflow counts as evaluated, and the
summary record is returned together with the signals sent. -/
def auto_close_inactive_tickets_activity (now : Int) (inactivity_minutes : Int)
    (closure_message : String) (tickets : List (String × Option TicketState)) :
    AutoCloseResult × List SentSignal :=
  let cutoff := now - inactivity_minutes * 60 * 1000000
  let (ids, sigs) := autoCloseGo cutoff closure_message tickets
  ({ evaluated := tickets.length
     closed := ids.length
     closed_ticket_ids := ids
     inactivity_minutes := inactivity_minutes }, sigs)

/-! ## Helper lemmas -/

theorem intentType_value_ne_empty (x : IntentType) : x.value ≠ "" := by
  cases x <;> decide

theorem escalationReason_value_ne_empty (x : EscalationReason) : x.value ≠ "" := by
  cases x <;> decide

/-- A `ChatMessage` is well-typed when its `agent_type` field holds an enum
member (or nothing), not a raw string. -/
def ChatMessage.enumTyped (m : ChatMessage) : Bool :=
  match m.agent_type with
  | none => true
  | some (.enum _) => true
  | some (.str _) => false

theorem parseOptAgentType_roundtrip (x : Option (EnumOrStr AgentType))
    (h : (match x with | some (.str _) => false | _ => true) = true) :
    parseOptAgentType (serializeAgentField x) = .ok x := by
  unfold serializeAgentField
  match x with
  | none => rfl
  | some (.enum a) =>
    simp [EnumOrStr.pyTruthy, EnumOrStr.serial, parseOptAgentType,
      agentType_value_ne_empty a, agentType_ofValue_value a]
  | some (.str s) => simp at h

theorem parseOptEnum_roundtrip {α : Type} (value : α → String) (ofValue : String → Option α)
    (err : String) (hne : ∀ a, value a ≠ "") (hrt : ∀ a, ofValue (value a) = some a)
    (x : Option α) : parseOptEnum ofValue err (x.map value) = .ok x := by
  match x with
  | none => rfl
  | some a => simp [parseOptEnum, hne a, hrt a]

theorem chatMessage_from_dict_to_dict (m : ChatMessage) (h : m.enumTyped = true) :
    ChatMessage.from_dict m.to_dict = .ok m := by
  have hmt : MessageType.ofValue m.to_dict.message_type = some m.message_type :=
    messageType_ofValue_value m.message_type
  have hcond : (match m.agent_type with
      | some (EnumOrStr.str _) => false
      | _ => true) = true := by
    revert h
    unfold ChatMessage.enumTyped
    cases m.agent_type with
    | none => intro h; rfl
    | some x =>
      cases x with
      | enum a => intro h; rfl
      | str s => intro h; exact h
  have hat : parseOptAgentType m.to_dict.agent_type = .ok m.agent_type :=
    parseOptAgentType_roundtrip m.agent_type hcond
  unfold ChatMessage.from_dict
  rw [hmt, hat]
  show Except.ok _ = Except.ok m
  unfold ChatMessage.to_dict
  simp [fromisoformat_isoformat]

theorem parseChatHistory_roundtrip (l : List ChatMessage)
    (h : ∀ m ∈ l, m.enumTyped = true) :
    parseChatHistory (l.map ChatMessage.to_dict) = .ok l := by
  induction l with
  | nil => rfl
  | cons m rest ih =>
    have hm : m.enumTyped = true := h m (List.mem_cons_self m rest)
    have hrest := ih fun x hx => h x (List.mem_cons_of_mem m hx)
    simp only [List.map_cons, parseChatHistory, chatMessage_from_dict_to_dict m hm, hrest]
    rfl

/-- A `TicketState` is well-typed when every message of its chat history
is. -/
def TicketState.enumTyped (t : TicketState) : Bool :=
  t.chat_history.all ChatMessage.enumTyped

theorem ticketState_from_dict_to_dict (t : TicketState) (h : t.enumTyped = true) :
    TicketState.from_dict t.to_dict = .ok t := by
  have hst : TicketStatus.ofValue t.to_dict.status = some t.status :=
    ticketStatus_ofValue_value t.status
  have hci : parseOptEnum IntentType.ofValue "ValueError: invalid IntentType"
      t.to_dict.current_intent = .ok t.current_intent :=
    parseOptEnum_roundtrip _ _ _ intentType_value_ne_empty intentType_ofValue_value _
  have hu : UrgencyLevel.ofValue t.to_dict.urgency_level = some t.urgency_level :=
    urgencyLevel_ofValue_value t.urgency_level
  have ha : parseOptEnum AgentType.ofValue "ValueError: invalid AgentType"
      t.to_dict.assigned_agent_type = .ok t.assigned_agent_type :=
    parseOptEnum_roundtrip _ _ _ agentType_value_ne_empty agentType_ofValue_value _
  have he : parseOptEnum EscalationReason.ofValue "ValueError: invalid EscalationReason"
      t.to_dict.escalation_reason = .ok t.escalation_reason :=
    parseOptEnum_roundtrip _ _ _ escalationReason_value_ne_empty escalationReason_ofValue_value _
  have hh : parseChatHistory t.to_dict.chat_history = .ok t.chat_history :=
    parseChatHistory_roundtrip t.chat_history (by
      intro m hm
      unfold TicketState.enumTyped at h
      exact List.all_eq_true.mp h m hm)
  unfold TicketState.from_dict
  rw [hst, hci, hu, ha, he, hh]
  show Except.ok _ = Except.ok t
  unfold TicketState.to_dict
  simp [fromisoformat_isoformat]

/-- The ticket status held by a conductor, if any. -/
def conductorStatus (c : ConductorState) : Option TicketStatus :=
  c.state.map (fun ts => ts.status)

theorem markAnswered_first_match (pre post : List (String × QuestionData)) (k : String)
    (q : QuestionData) (wid content : String) (now : Datetime)
    (hq : q.workflow_id = wid) (hpre : ∀ p ∈ pre, p.2.workflow_id ≠ wid) :
    markAnswered (pre ++ (k, q) :: post) wid content now =
      pre ++ (k, { q with
                   response := some content
                   responded_at := some (isoformat now)
                   status := "answered" }) :: post := by
  induction pre with
  | nil => simp [markAnswered, hq]
  | cons p rest ih =>
    obtain ⟨pk, pq2⟩ := p
    have hp : pq2.workflow_id ≠ wid := hpre (pk, pq2) (List.mem_cons_self _ _)
    have ih2 := ih (fun x hx => hpre x (List.mem_cons_of_mem _ hx))
    simp only [List.cons_append, markAnswered, hp, if_neg, if_false, List.append_eq, ih2]

/-! ## Fixtures used by the concrete theorems -/

def baseTicket : TicketState :=
  { ticket_id := "TCK-1"
    customer_id := "CUST-1"
    customer_profile := []
    status := .open_
    current_intent := none
    urgency_level := .low
    assigned_agent_type := none
    context := []
    chat_history := []
    created_at := 0
    last_updated := 0 }

/-- A conductor whose ticket has reached the terminal status CLOSED. -/
def closedConductor : ConductorState :=
  { pending_queries := []
    waiting_for_answer_workflow_id := none
    state := some { baseTicket with status := .closed } }

/-- The question record of a pending question asked by the male
specialist, as stored by `display_agent_question`. -/
def pendingQ : QuestionData :=
  { question_id := "TCK-1-question-1"
    ticket_id := "TCK-1"
    question := "What are your measurements?"
    expected_response_type := "text"
    agent_type := "male_specialist"
    asked_at := isoformat 5
    status := "pending"
    workflow_id := "TCK-1-question-1" }

/-- A conductor waiting for the customer to answer `pendingQ`. -/
def waitingConductor : ConductorState :=
  { pending_queries := []
    waiting_for_answer_workflow_id := some "TCK-1-question-1"
    state := some { baseTicket with
                    status := .waiting_for_customer
                    pending_questions := [("TCK-1-question-1", pendingQ)] } }

/-- An incoming customer message, as the `addMessage` dict payload. -/
def custMsgDict : ChatMessageDict :=
  { id := "m2"
    ticket_id := "TCK-1"
    content := "chest 40, waist 32"
    message_type := "customer"
    agent_type := none
    timestamp := isoformat 9
    metadata := []
    additional_info := some [] }

/-! ## Claim theorems -/

/-- Claim C1: the spec says a `question_timeout(question_id)` signal on the
Ticket Conductor marks the question record `timeout` and, with no other
pending question, restores IN_PROGRESS.  The conductor registers no
`question_timeout` handler at all, so the signal — which
`UserQuestionWorkflow.run` does send — is dropped: for every conductor
state it leaves the state unchanged and emits nothing. -/
theorem question_timeout_signal_dropped (c : ConductorState) (now : Datetime)
    (question_id question : String) :
    TicketWorkflow.handleSignal c now (.question_timeout question_id question) = .ok (c, []) :=
  rfl

/-- Claim C1 evidence at the failing input: a conductor waiting on a
pending question receives `question_timeout` for that very question; the
state is unchanged, the record still reads `pending` (never `timeout`) and
the status stays WAITING_FOR_CUSTOMER instead of returning to
IN_PROGRESS. -/
theorem question_timeout_dropped_at_failing_input :
    TicketWorkflow.handleSignal waitingConductor 305
        (.question_timeout "TCK-1-question-1" "What are your measurements?") =
      .ok (waitingConductor, []) ∧
    pendingQ.status = "pending" ∧
    conductorStatus waitingConductor = some .waiting_for_customer :=
  ⟨rfl, rfl, rfl⟩

/-- Claim C2 counterexample: from the terminal status CLOSED, an
`updateTicketStatus("open")` signal moves the ticket back to the
non-terminal status OPEN — the handler has no terminal-state guard. -/
theorem closed_ticket_reopened :
    conductorStatus closedConductor = some .closed ∧
    (TicketWorkflow.updateTicketStatus closedConductor 7 "open").map conductorStatus =
      .ok (some .open_) :=
  ⟨rfl, rfl⟩

/-- Claim C2 amended: no handler checks for a terminal status.  Once the
status is CLOSED or RESOLVED it is guaranteed to stay terminal only under
operations that do not write a non-terminal status: `updateTicketStatus`
with a terminal argument (which sets exactly the requested status),
`addMessage` of a SYSTEM or AI_AGENT message, and `addMessage` of any
message while no awaiting-answer marker is set, all leave the status
terminal; `updateTicketStatus` with a non-terminal argument moves the
status out of the terminal state. -/
theorem terminal_status_not_guarded
    (c : ConductorState) (ts : TicketState) (now : Datetime)
    (hs : c.state = some ts)
    (hterm : ts.status = .closed ∨ ts.status = .resolved) :
    ((TicketWorkflow.updateTicketStatus c now "closed").map conductorStatus =
        .ok (some .closed)) ∧
    ((TicketWorkflow.updateTicketStatus c now "resolved").map conductorStatus =
        .ok (some .resolved)) ∧
    (∀ v st, TicketStatus.ofValue v = some st →
      (TicketWorkflow.updateTicketStatus c now v).map conductorStatus = .ok (some st)) ∧
    (∀ msg cm, ChatMessage.from_dict msg = .ok cm →
      (cm.message_type = .system ∨ cm.message_type = .ai_agent) →
      (TicketWorkflow.addMessage c now msg).map (fun p => conductorStatus p.1) =
        .ok (some ts.status)) ∧
    (c.waiting_for_answer_workflow_id = none →
      ∀ msg cm, ChatMessage.from_dict msg = .ok cm →
      (TicketWorkflow.addMessage c now msg).map (fun p => conductorStatus p.1) =
        .ok (some ts.status)) := by
  refine ⟨?_, ?_, ?_, ?_, ?_⟩
  · simp [TicketWorkflow.updateTicketStatus, hs, TicketStatus.ofValue, conductorStatus, Except.map]
  · simp [TicketWorkflow.updateTicketStatus, hs, TicketStatus.ofValue, conductorStatus, Except.map]
  · intro v st hv
    simp [TicketWorkflow.updateTicketStatus, hs, hv, conductorStatus, Except.map]
  · intro msg cm hparse htype
    simp [TicketWorkflow.addMessage, hs, hparse, htype, conductorStatus, Except.map]
  · intro hw msg cm hparse
    by_cases htype : cm.message_type = .system ∨ cm.message_type = .ai_agent
    · simp [TicketWorkflow.addMessage, hs, hparse, htype, conductorStatus, Except.map]
    · simp [TicketWorkflow.addMessage, hs, hparse, htype, hw, conductorStatus, Except.map]

/-- Claim C2 amended, instantiated: the terminal-preserving conclusions at
the concrete closed conductor. -/
theorem terminal_status_not_guarded_witness :
    ((TicketWorkflow.updateTicketStatus closedConductor 7 "closed").map conductorStatus =
        .ok (some .closed)) ∧
    ((TicketWorkflow.updateTicketStatus closedConductor 7 "resolved").map conductorStatus =
        .ok (some .resolved)) :=
  ⟨(terminal_status_not_guarded closedConductor _ 7 rfl (Or.inl rfl)).1,
   (terminal_status_not_guarded closedConductor _ 7 rfl (Or.inl rfl)).2.1⟩

/-- Claim C3: after an orchestrator child workflow completes, the ticket
status is IN_PROGRESS, overwritten to ESCALATED_TO_HUMAN exactly when the
result requires escalation — whatever status (including terminal ones) the
ticket held before. -/
theorem orchestration_poststatus (ts : TicketState) (result : OrchestratorOutput)
    (now : Datetime) (followup_msg_id : String) :
    (TicketWorkflow.processOrchestratorResult ts result now followup_msg_id).status =
      if result.requires_escalation then .escalated_to_human else .in_progress := by
  unfold TicketWorkflow.processOrchestratorResult
  by_cases hf : result.requires_followup = true ∧ result.followup_plan.isSome = true <;>
    cases he : result.requires_escalation <;> simp [he, hf]

/-- Claim C4: a CUSTOMER `addMessage` signal arriving while the
awaiting-answer marker holds question workflow W sends W's
`receive_answer` signal with exactly the incoming content, marks the
matching question record answered with the response recorded, clears the
marker, enqueues nothing (no new Orchestrator is spawned), and sets the
status to IN_PROGRESS when no non-answered question remains. -/
theorem customer_answer_routing
    (c : ConductorState) (ts : TicketState) (wid : String) (now : Datetime)
    (msg : ChatMessageDict) (cm : ChatMessage)
    (pre post : List (String × QuestionData)) (k : String) (q : QuestionData)
    (hs : c.state = some ts)
    (hw : c.waiting_for_answer_workflow_id = some wid)
    (hparse : ChatMessage.from_dict msg = .ok cm)
    (hct : cm.message_type = .customer)
    (hpq : ts.pending_questions = pre ++ (k, q) :: post)
    (hqw : q.workflow_id = wid)
    (hpre : ∀ p ∈ pre, p.2.workflow_id ≠ wid) :
    ∃ c2, TicketWorkflow.addMessage c now msg =
        .ok (c2, [Effect.signalExternal wid "receive_answer" cm.content]) ∧
      c2.waiting_for_answer_workflow_id = none ∧
      c2.pending_queries = c.pending_queries ∧
      ∃ ts2, c2.state = some ts2 ∧
        ts2.pending_questions =
          pre ++ (k, { q with
                       response := some cm.content
                       responded_at := some (isoformat now)
                       status := "answered" }) :: post ∧
        (countPending ts2.pending_questions = 0 → ts2.status = .in_progress) ∧
        (countPending ts2.pending_questions ≠ 0 → ts2.status = ts.status) ∧
        ts2.chat_history = ts.chat_history ++ [cm] := by
  have hmark := markAnswered_first_match pre post k q wid cm.content now hqw hpre
  have hnots : ¬ (cm.message_type = .system ∨ cm.message_type = .ai_agent) := by
    rw [hct]; decide
  simp only [TicketWorkflow.addMessage, hs, hparse, hnots, if_false, hw, hct, if_true,
    ite_false, ite_true, hpq, hmark]
  by_cases hcp : countPending
      (pre ++ (k, { q with
                    response := some cm.content
                    responded_at := some (isoformat now)
                    status := "answered" }) :: post) = 0
  · simp only [hcp, ite_true, if_true]
    refine ⟨_, rfl, rfl, rfl, _, rfl, rfl, fun _ => rfl, fun hne => absurd hcp hne, rfl⟩
  · simp only [hcp, ite_false, if_false]
    refine ⟨_, rfl, rfl, rfl, _, rfl, rfl, fun h0 => absurd h0 hcp, fun _ => rfl, rfl⟩

/-- Claim C4, instantiated: the waiting conductor routes the concrete
customer message to the waiting question workflow. -/
theorem customer_answer_routing_witness :
    ∃ c2, TicketWorkflow.addMessage waitingConductor 9 custMsgDict =
        .ok (c2, [Effect.signalExternal "TCK-1-question-1" "receive_answer" "chest 40, waist 32"]) ∧
      c2.waiting_for_answer_workflow_id = none ∧
      c2.pending_queries = waitingConductor.pending_queries ∧
      ∃ ts2, c2.state = some ts2 ∧
        ts2.pending_questions =
          [("TCK-1-question-1", { pendingQ with
                                  response := some "chest 40, waist 32"
                                  responded_at := some (isoformat 9)
                                  status := "answered" })] ∧
        (countPending ts2.pending_questions = 0 → ts2.status = .in_progress) ∧
        (countPending ts2.pending_questions ≠ 0 →
          ts2.status = TicketStatus.waiting_for_customer) ∧
        ts2.chat_history = [] ++ [{ id := "m2"
                                    ticket_id := "TCK-1"
                                    content := "chest 40, waist 32"
                                    message_type := .customer
                                    agent_type := none
                                    timestamp := fromisoformat (isoformat 9)
                                    metadata := []
                                    additional_info := some [] }] := by
  exact customer_answer_routing waitingConductor _ "TCK-1-question-1" 9 custMsgDict _
    [] [] "TCK-1-question-1" pendingQ rfl rfl rfl rfl rfl rfl
    (by intro p hp; cases hp)

/-- Claim C5 counterexample: with the ticket CLOSED (a terminal status),
an incoming CUSTOMER `addMessage` signal is not ignored — the handler has
no terminal-status check, so the message is appended to the chat history
and enqueued for processing. -/
theorem terminal_addMessage_not_ignored :
    conductorStatus closedConductor = some .closed ∧
    (closedConductor.state.map fun ts => ts.chat_history.length) = some 0 ∧
    (TicketWorkflow.addMessage closedConductor 8 custMsgDict).map
        (fun p => p.1.state.map fun ts => ts.chat_history.length) = .ok (some 1) ∧
    (TicketWorkflow.addMessage closedConductor 8 custMsgDict).map
        (fun p => p.1.pending_queries.length) = .ok 1 :=
  ⟨rfl, rfl, rfl, rfl⟩

/-- Claim C5 amended: when the ticket status is terminal (CLOSED or
RESOLVED) an incoming `addMessage` signal is still processed rather than
ignored — the message is appended to the chat history, and a CUSTOMER
message with no awaiting-answer marker set is additionally enqueued for
orchestration; `updateTicketStatus` signals are likewise accepted. -/
theorem terminal_addMessage_appends
    (c : ConductorState) (ts : TicketState) (now : Datetime)
    (msg : ChatMessageDict) (cm : ChatMessage)
    (hs : c.state = some ts)
    (hterm : ts.status = .closed ∨ ts.status = .resolved)
    (hparse : ChatMessage.from_dict msg = .ok cm) :
    (∃ c2 effs, TicketWorkflow.addMessage c now msg = .ok (c2, effs) ∧
      ∃ ts2, c2.state = some ts2 ∧ ts2.chat_history = ts.chat_history ++ [cm]) ∧
    (c.waiting_for_answer_workflow_id = none →
      (TicketWorkflow.addMessage c now msg).map (fun p => p.1.pending_queries) =
        .ok (if cm.message_type = .system ∨ cm.message_type = .ai_agent then
               c.pending_queries
             else c.pending_queries ++ [cm])) ∧
    ((TicketWorkflow.updateTicketStatus c now "closed").map conductorStatus =
      .ok (some .closed)) := by
  refine ⟨?_, ?_, ?_⟩
  · by_cases htype : cm.message_type = .system ∨ cm.message_type = .ai_agent
    · simp only [TicketWorkflow.addMessage, hs, hparse, htype, ite_true, if_true]
      exact ⟨_, _, rfl, _, rfl, rfl⟩
    · cases hwv : c.waiting_for_answer_workflow_id with
      | none =>
        simp only [TicketWorkflow.addMessage, hs, hparse, htype, ite_false, if_false, hwv]
        exact ⟨_, _, rfl, _, rfl, rfl⟩
      | some wid =>
        by_cases hcust : cm.message_type = .customer
        · simp only [TicketWorkflow.addMessage, hs, hparse, htype, ite_false, if_false, hwv,
            hcust, ite_true, if_true]
          by_cases hcp : countPending (markAnswered ts.pending_questions wid cm.content now) = 0 <;>
            simp only [hcp, ite_true, ite_false, if_true, if_false] <;>
            exact ⟨_, _, rfl, _, rfl, rfl⟩
        · simp only [TicketWorkflow.addMessage, hs, hparse, htype, ite_false, if_false, hwv,
            hcust]
          exact ⟨_, _, rfl, _, rfl, rfl⟩
  · intro hwv
    by_cases htype : cm.message_type = .system ∨ cm.message_type = .ai_agent <;>
      simp [TicketWorkflow.addMessage, hs, hparse, htype, hwv, Except.map]
  · simp [TicketWorkflow.updateTicketStatus, hs, TicketStatus.ofValue, conductorStatus, Except.map]

/-- Claim C5 amended, instantiated at the closed conductor and the
concrete customer message. -/
theorem terminal_addMessage_appends_witness :
    (TicketWorkflow.updateTicketStatus closedConductor 8 "closed").map conductorStatus =
      .ok (some .closed) :=
  (terminal_addMessage_appends closedConductor _ 8 custMsgDict
    { id := "m2"
      ticket_id := "TCK-1"
      content := "chest 40, waist 32"
      message_type := .customer
      agent_type := none
      timestamp := fromisoformat (isoformat 9)
      metadata := []
      additional_info := some [] }
    rfl (Or.inl rfl) rfl).2.2

/-- First link of a three-step dependency chain, listed last in the
plan. -/
def chainStep1 : ExecutionStep :=
  { step_number := 1
    agent_type := "order_specialist"
    reason := "find the order" }

/-- Second link of the chain, depending on step 1. -/
def chainStep2 : ExecutionStep :=
  { step_number := 2
    agent_type := "refund_specialist"
    reason := "assess the refund for the order found in step 1"
    depends_on := [1]
    context_references := ["step_1"] }

/-- Third link of the chain, depending on step 2. -/
def chainStep3 : ExecutionStep :=
  { step_number := 3
    agent_type := "billing"
    reason := "settle the refund assessed in step 2"
    depends_on := [2]
    context_references := ["step_2"] }

/-- With the chain listed dependency-last, each pass of the grouping loop
frees exactly one step, so the staging needs three passes and the
`completed_steps` set accumulated in earlier passes: the model, like the
source, yields the three singleton stages [[1], [2], [3]]. -/
theorem chain_plan_staged_across_passes :
    OrchestratorAgent.groupByDependencies [chainStep3, chainStep2, chainStep1] =
      [[chainStep1], [chainStep2], [chainStep3]] :=
  rfl

/-- A step with no dependencies, listed first in the plan. -/
def depStep1 : ExecutionStep :=
  { step_number := 1
    agent_type := "order_specialist"
    reason := "look up the order" }

/-- A step that depends on step 1, listed second. -/
def depStep2 : ExecutionStep :=
  { step_number := 2
    agent_type := "billing"
    reason := "bill using the order found in step 1"
    depends_on := [1]
    context_references := ["step_1"] }

/-- Claim C6: the stage grouping is claimed to put only dependency-free
steps into stage 1 and never to place two steps of the same stage in a
dependency relation.  The implementation adds each step's number to
`completed_steps` while still scanning the same pass, so a step whose
dependency appears earlier in the list lands in the same stage as that
dependency: for the plan [step 1 (no deps), step 2 (depends on 1)] it
returns the single stage [[step 1, step 2]], with step 2 depending on its
stage-mate step 1 — contradicting the function's own docstring example,
which groups this shape as [[1], [2, 3], [4]]. -/
theorem dependent_steps_grouped_into_one_stage :
    OrchestratorAgent.groupByDependencies [depStep1, depStep2] = [[depStep1, depStep2]] ∧
    depStep1.depends_on = [] ∧
    depStep2.depends_on = [depStep1.step_number] :=
  ⟨rfl, rfl, rfl⟩

/-- An OPEN ticket whose last activity is exactly the inactivity threshold
(60 minutes, in microseconds) before the evaluation instant 7200000000. -/
def boundaryTicket : TicketState :=
  { baseTicket with
    status := .open_
    last_updated := 3600000000 }

/-- Claim C7 counterexample: at the exact boundary
`now - last_activity = inactivity_threshold` the activity closes nothing
and sends no signal — the code skips whenever `last_activity >= cutoff`,
i.e. it closes only on strictly greater inactivity, while the claim says
`≥` triggers the close. -/
theorem auto_close_boundary_not_closed :
    auto_close_inactive_tickets_activity 7200000000 60
        "This ticket is now closed due to inactivity" [("TCK-1", some boundaryTicket)] =
      ({ evaluated := 1, closed := 0, closed_ticket_ids := [], inactivity_minutes := 60 }, []) ∧
    (7200000000 : Int) - (boundaryTicket.last_updated : Int) = 60 * 60 * 1000000 ∧
    boundaryTicket.status = .open_ ∧
    boundaryTicket.chat_history = [] :=
  ⟨rfl, rfl, rfl, rfl⟩

/-- Claim C7 amended: the auto-close activity signals
`addMessage(SYSTEM closure message)` and `updateTicketStatus("closed")` to
a running ticket exactly when its status is OPEN and `now - last_activity`
is STRICTLY GREATER than the inactivity threshold (at exact equality the
ticket is skipped); other tickets are left unsignaled, and the returned
record counts every evaluated ticket, the closed tickets, their ids and
the threshold used. -/
theorem auto_close_strict_threshold :
    (∀ (now thr : Int) (msg : String) (tickets : List (String × Option TicketState)),
      (auto_close_inactive_tickets_activity now thr msg tickets).1.evaluated =
          tickets.length ∧
      (auto_close_inactive_tickets_activity now thr msg tickets).1.inactivity_minutes = thr ∧
      (auto_close_inactive_tickets_activity now thr msg tickets).1.closed =
        (auto_close_inactive_tickets_activity now thr msg tickets).1.closed_ticket_ids.length) ∧
    (∀ (now thr : Int) (msg wf_id : String) (t : TicketState),
      auto_close_inactive_tickets_activity now thr msg [(wf_id, some t)] =
        if t.status = .open_ ∧ now - lastActivity t > thr * 60 * 1000000 then
          ({ evaluated := 1
             closed := 1
             closed_ticket_ids := [if t.ticket_id = "" then wf_id else t.ticket_id]
             inactivity_minutes := thr },
           [SentSignal.addMessage wf_id "system" msg,
            SentSignal.updateTicketStatus wf_id "closed"])
        else
          ({ evaluated := 1, closed := 0, closed_ticket_ids := [], inactivity_minutes := thr },
           [])) := by
  constructor
  · intro now thr msg tickets
    exact ⟨rfl, rfl, rfl⟩
  · intro now thr msg wf_id t
    unfold auto_close_inactive_tickets_activity autoCloseGo autoCloseStep
    by_cases hst : t.status = TicketStatus.open_
    · by_cases hla : lastActivity t ≥ now - thr * 60 * 1000000
      · have hcond : ¬ (t.status = TicketStatus.open_ ∧
            now - lastActivity t > thr * 60 * 1000000) := by
          rintro ⟨-, hgt⟩; omega
        rw [if_neg hcond]
        simp [hst, hla, autoCloseGo]
      · have hcond : t.status = TicketStatus.open_ ∧
            now - lastActivity t > thr * 60 * 1000000 := ⟨hst, by omega⟩
        rw [if_pos hcond]
        simp [hst, hla, autoCloseGo]
    · have hcond : ¬ (t.status = TicketStatus.open_ ∧
          now - lastActivity t > thr * 60 * 1000000) := by
        rintro ⟨h1, -⟩; exact hst h1
      rw [if_neg hcond]
      simp [hst, autoCloseGo]

/-- A planner result with an empty step list. -/
def emptyPlannerResult : PlannerResult :=
  { steps := []
    strategy := "sequential"
    complexity_level := "simple"
    estimated_duration := 5
    reasoning := "nothing to do" }

/-- Claim C8 counterexample: when the planner collaborator returns an
empty step list the planning activity returns a plan with ZERO steps — the
default single-step GENERAL_SUPPORT plan is produced only in the exception
fallback, not for an empty result. -/
theorem empty_planner_steps_give_empty_plan :
    (orchestrator_planning_activity (.ok emptyPlannerResult)).steps = [] ∧
    fallbackPlan.steps.length = 1 ∧
    (fallbackPlan.steps.map fun s => s.agent_type) = ["general_support"] :=
  ⟨rfl, rfl, rfl⟩

/-- Claim C8 amended: a planner result with an empty step list yields a
plan with an empty step list (the default single-step GENERAL_SUPPORT plan
arises only when the planner call raises); any step whose agent type is
not a known `AgentType` value is rewritten to `general_support` — so every
step of every returned plan carries a registered agent type — and the
planning activity itself never raises (it is a total function). -/
theorem planning_validation (r : PlannerResult) (hr : r.steps = []) :
    (orchestrator_planning_activity (.ok r)).steps = [] ∧
    (∀ e, orchestrator_planning_activity (.error e) = fallbackPlan) ∧
    (∀ so : PlannedStepOutput, AgentType.ofValue so.agent = none →
      (convertPlannedStep so).agent_type = "general_support") ∧
    (∀ (input : Except String PlannerResult) (s : ExecutionStep),
      s ∈ (orchestrator_planning_activity input).steps →
      (AgentType.ofValue s.agent_type).isSome = true) := by
  refine ⟨by simp [orchestrator_planning_activity, hr], fun e => rfl, ?_, ?_⟩
  · intro so hso
    simp [convertPlannedStep, hso]
  · intro input s hmem
    cases input with
    | error e =>
      simp only [orchestrator_planning_activity, fallbackPlan, List.mem_singleton] at hmem
      rw [hmem]
      decide
    | ok pr =>
      simp only [orchestrator_planning_activity, List.mem_map] at hmem
      obtain ⟨so, -, rfl⟩ := hmem
      unfold convertPlannedStep
      by_cases hv : (AgentType.ofValue so.agent).isSome
      · simp [hv]
      · simp [hv]
        decide

/-- Claim C8 amended, instantiated at the empty planner result. -/
theorem planning_validation_witness :
    (orchestrator_planning_activity (.ok emptyPlannerResult)).steps = [] ∧
    orchestrator_planning_activity (.error "llm failure") = fallbackPlan :=
  ⟨(planning_validation emptyPlannerResult rfl).1,
   (planning_validation emptyPlannerResult rfl).2.1 "llm failure"⟩

/-- Claim C9 counterexample: when a `receive_answer` signal carrying the
empty string arrives before the timeout, the question workflow returns
`"No response provided"`, not the (empty) answer string — the source
returns `self._user_answer or "No response provided"`. -/
theorem empty_answer_not_returned :
    (UserQuestionWorkflow.run
        { question := "Which order?", parent_workflow_id := "TCK-1", ticket_id := "TCK-1" }
        "TCK-1-question-1" 5 (some "")).1 = "No response provided" ∧
    "No response provided" ≠ "" :=
  ⟨rfl, by decide⟩

/-- Claim C9 amended: on timeout the question workflow returns exactly
`"[TIMEOUT: User did not respond within N seconds]"` with the numeric
timeout substituted; on an answer signal it returns the answer string if
that string is non-empty and `"No response provided"` otherwise. -/
theorem question_run_results (input : UserQuestion) (question_id : String) (now : Datetime) :
    (UserQuestionWorkflow.run input question_id now none).1 =
      "[TIMEOUT: User did not respond within " ++ toString input.timeout_seconds ++
        " seconds]" ∧
    (∀ answer, (UserQuestionWorkflow.run input question_id now (some answer)).1 =
      if answer = "" then "No response provided" else answer) :=
  ⟨rfl, fun _ => rfl⟩

/-- Claim C10: for well-typed values — enum-valued fields holding enum
members (`enumTyped`), the rest enforced by the model's types —
deserializing the result of serialization is the identity, for both
`ChatMessage` and `TicketState` (including enums, timestamps, optional
fields, and the nested chat history). -/
theorem serialization_roundtrip :
    (∀ m : ChatMessage, m.enumTyped = true →
      ChatMessage.from_dict m.to_dict = .ok m) ∧
    (∀ t : TicketState, t.enumTyped = true →
      TicketState.from_dict t.to_dict = .ok t) :=
  ⟨chatMessage_from_dict_to_dict, ticketState_from_dict_to_dict⟩

/-- A well-typed chat message exercising the optional fields. -/
def sampleMessage : ChatMessage :=
  { id := "m1"
    ticket_id := "TCK-1"
    content := "I want to buy a formal shirt"
    message_type := .customer
    agent_type := some (.enum .general_support)
    timestamp := 123456
    metadata := [("confidence", .str "high")]
    additional_info := some [("suggested_actions", .list [.str "search catalog"])] }

/-- A well-typed ticket state with a non-empty chat history and populated
optional enum fields. -/
def sampleState : TicketState :=
  { baseTicket with
    status := .in_progress
    current_intent := some .purchase
    assigned_agent_type := some .male_specialist
    escalation_reason := some .complex_issue
    satisfaction_score := some 4
    chat_history := [sampleMessage]
    pending_questions := [("TCK-1-question-1", pendingQ)] }

/-- Claim C10, instantiated at the sample message and sample state. -/
theorem serialization_roundtrip_witness :
    ChatMessage.from_dict sampleMessage.to_dict = .ok sampleMessage ∧
    TicketState.from_dict sampleState.to_dict = .ok sampleState :=
  ⟨serialization_roundtrip.1 sampleMessage rfl,
   serialization_roundtrip.2 sampleState rfl⟩

end TemporalSupport
